import Mathlib

/-!
Shallow embedding of the trackintel repository pieces under verification:

* `trackintel/analysis/labelling.py` — `create_activity_flag`,
  `predict_transport_mode`, `_predict_transport_mode_simple_coarse`,
  `category_by_speed`, `_check_categories`;
* `trackintel/model/triplegs.py` — `Triplegs._validate`, `Triplegs._check`,
  `Triplegs.__init__`;
* `trackintel/model/util.py` (not in the sources, only its tests are) —
  the derived-result retagging policy and the accessor registry are
  modelled from the specification.

Conventions of the embedding:

* A pandas/GeoPandas table is a `Table`: a list of column names together
  with a list of rows, each row a list of `Value`s aligned with the
  columns.  Column assignment `df[c] = s` is `Table.setCol`, column read
  `df[c]` is `Table.getCol`.
* Python floats that only ever flow through order comparisons are
  modelled as rationals; a possibly-NaN float (a tripleg speed) is a
  `SpeedVal`, whose comparison against a bound is `false` whenever the
  value is NaN, exactly as in IEEE comparisons.  `np.inf` used as a
  category bound is the top element of `WithTop ℚ`.
* A Python function that may mutate its argument in place is modelled in
  state-passing style: it returns a pair `(post-state of the argument
  object as the caller sees it, return value)`, the return value being
  an `Except String` to model raised exceptions.
* The external speed computation `get_speed_triplegs` (excluded from the
  core by the spec) is a parameter `getSpeed : Table → List SpeedVal`
  giving the per-row speed column it would produce.
-/

/-- A cell value of a table: timezone-aware timestamps are rationals
(seconds since epoch), floats that can be NaN live in `SpeedVal`. -/
inductive Value where
  | timestamp : ℚ → Value
  | boolean : Bool → Value
  | str : String → Value
  | null : Value
deriving DecidableEq, Repr

/-- A float that is either NaN or a rational value. -/
inductive SpeedVal where
  | nan : SpeedVal
  | val : ℚ → SpeedVal
deriving DecidableEq, Repr

/-- IEEE-style `speed < bound` for a possibly-NaN speed against a
possibly-infinite bound: any comparison with NaN is false. -/
def SpeedVal.lt : SpeedVal → WithTop ℚ → Bool
  | .nan, _ => false
  | .val q, b => decide ((q : WithTop ℚ) < b)

/-- A pandas DataFrame: ordered column names plus rows of values. -/
structure Table where
  cols : List String
  rows : List (List Value)
deriving DecidableEq, Repr

/-- Position of a column name in a column list (first occurrence). -/
def colIndex (name : String) : List String → Option Nat
  | [] => none
  | c :: cs => if c = name then some 0 else (colIndex name cs).map (· + 1)

/-- Column read `df[name]`: the list of that column's cells. -/
def Table.getCol (t : Table) (name : String) : Option (List Value) :=
  match colIndex name t.cols with
  | some i => some (t.rows.map (fun r => r.getD i Value.null))
  | none => none

/-- Column assignment `df[name] = vals`: overwrite the column in place if it exists,
otherwise append it as a new last column. -/
def Table.setCol (t : Table) (name : String) (vals : List Value) : Table :=
  match colIndex name t.cols with
  | some i => ⟨t.cols, List.zipWith (fun r v => r.set i v) t.rows vals⟩
  | none => ⟨t.cols ++ [name], List.zipWith (fun r v => r ++ [v]) t.rows vals⟩

/-- `finished_at - started_at > datetime.timedelta(minutes=threshold)` on
one row; the threshold is in minutes, timestamps in seconds. -/
def durationGT (threshold : ℚ) : Value → Value → Bool
  | .timestamp s, .timestamp f => decide (f - s > threshold * 60)
  | _, _ => false

/-- Embedding of `create_activity_flag` from `trackintel/analysis/labelling.py`,
in state-passing style: the first component is the staypoints object as
the caller sees it after the call (the function assigns the activity
column onto the very object passed in), the second the return value. -/
def create_activity_flag (staypoints : Table) (method : String)
    (time_threshold : ℚ) (activity_column_name : String) :
    Table × Except String Table :=
  if method = "time_threshold" then
    match staypoints.getCol "started_at", staypoints.getCol "finished_at" with
    | some ss, some fs =>
      let flags := List.zipWith
        (fun s f => Value.boolean (durationGT time_threshold s f)) ss fs
      let staypoints' := staypoints.setCol activity_column_name flags
      (staypoints', .ok staypoints')
    | _, _ => (staypoints, .error "KeyError: started_at or finished_at")
  else
    (staypoints,
      .error ("Method " ++ method ++ " not known for creating activity flag."))

/-- Loop of `_check_categories` over adjacent bounds: true iff the listed
bounds are strictly ascending. -/
def ascendingBounds : List (WithTop ℚ) → Bool
  | a :: b :: rest => decide (a < b) && ascendingBounds (b :: rest)
  | _ => true

/-- Embedding of `_check_categories` from `trackintel/analysis/labelling.py`: the
dict's keys (in insertion order) must be in ascending order. -/
def _check_categories (cat : List (WithTop ℚ × String)) : Bool :=
  ascendingBounds (cat.map Prod.fst)

/-- Embedding of `category_by_speed`, the closure inside
`_predict_transport_mode_simple_coarse`: scan the category dict in
insertion order and return the first category whose upper bound the
speed is strictly below; falling off the loop returns Python's implicit
`None`. -/
def category_by_speed (categories : List (WithTop ℚ × String))
    (speed : SpeedVal) : Option String :=
  match categories with
  | [] => none
  | (bound, cat) :: rest =>
    if speed.lt bound then some cat else category_by_speed rest speed

/-- What `triplegs_speed["speed"].apply(category_by_speed)` stores in a
cell: the category string, or a null for Python `None`. -/
def modeCell (categories : List (WithTop ℚ × String)) (s : SpeedVal) : Value :=
  match category_by_speed categories s with
  | some c => Value.str c
  | none => Value.null

/-- Embedding of `_predict_transport_mode_simple_coarse` from
`trackintel/analysis/labelling.py`.  `getSpeed` stands for the external
`get_speed_triplegs` speed column.  The input table is copied
(`triplegs_in.copy()`), so the mode column lands on a fresh table. -/
def _predict_transport_mode_simple_coarse (getSpeed : Table → List SpeedVal)
    (triplegs_in : Table) (categories : List (WithTop ℚ × String)) :
    Except String Table :=
  if ¬ _check_categories categories then
    .error "the categories must be in increasing order"
  else
    let triplegs := triplegs_in
    let speeds := getSpeed triplegs
    .ok (triplegs.setCol "mode" (speeds.map (modeCell categories)))

/-- The default `categories` keyword of `predict_transport_mode`. -/
def default_categories : List (WithTop ℚ × String) :=
  [(((15 : ℚ) / 3.6 : ℚ), "slow_mobility"),
   (((100 : ℚ) / 3.6 : ℚ), "motorized_mobility"),
   (⊤, "fast_mobility")]

/-- Embedding of `predict_transport_mode` from `trackintel/analysis/labelling.py`, in
state-passing style: the first component is the caller's triplegs object
after the call (never touched by this function), the second the return
value or the raised error. -/
def predict_transport_mode (getSpeed : Table → List SpeedVal)
    (triplegs : Table) (method : String)
    (categories : List (WithTop ℚ × String)) : Table × Except String Table :=
  if method = "simple-coarse" then
    (triplegs, _predict_transport_mode_simple_coarse getSpeed triplegs categories)
  else
    (triplegs,
      .error ("Method " ++ method ++
        " not known for predicting tripleg transport modes."))

/-!
Embedding of `trackintel/model/triplegs.py`.  A `GDF` records exactly
what `Triplegs._validate` / `Triplegs._check` inspect of a GeoDataFrame:
its column names with their dtypes, its row count, whether a geometry
column is set, and the per-row geometries (validity flag and geometry
type string).  Raising code is modelled with `Except String`.
-/

/-- A pandas column dtype, as far as the triplegs contract looks at it:
timezone-aware datetime or anything else. -/
inductive Dtype where
  | datetimeTZ : Dtype
  | other : String → Dtype
deriving DecidableEq, Repr

/-- One row's geometry: shapely validity plus the `geom_type` string. -/
structure Geom where
  valid : Bool
  geomType : String
deriving DecidableEq, Repr

/-- The face of a GeoDataFrame that the triplegs contract inspects. -/
structure GDF where
  columns : List (String × Dtype)
  nRows : Nat
  geometryName : Option String
  geoms : List Geom
deriving DecidableEq, Repr

/-- Column names of a `GDF`, in order (`obj.columns`). -/
def GDF.colNames (obj : GDF) : List String := obj.columns.map Prod.fst

/-- Membership test `c in obj.columns`. -/
def GDF.hasCol (obj : GDF) (c : String) : Bool := decide (c ∈ obj.colNames)

/-- Dtype test `isinstance(obj[c].dtype, pd.DatetimeTZDtype)` — first matching
column, as pandas label lookup does for a unique label. -/
def GDF.dtypeIsTZ (obj : GDF) (c : String) : Bool :=
  match obj.columns.lookup c with
  | some Dtype.datetimeTZ => true
  | _ => false

/-- Geometry access `obj.geometry`: raises if no geometry column is set. -/
def GDF.geometry (obj : GDF) : Except String (List Geom) :=
  match obj.geometryName with
  | some _ => .ok obj.geoms
  | none => .error "You are calling a frame which has no geometry column set"

/-- Positional access `.iloc[0]`: raises on an empty sequence. -/
def iloc0 : List Geom → Except String Geom
  | g :: _ => .ok g
  | [] => .error "single positional indexer is out-of-bounds"

/-- Required columns `['user_id', 'started_at', 'finished_at']`. -/
def _required_columns : List String := ["user_id", "started_at", "finished_at"]

/-- The message of `Triplegs._validate`'s empty-frame assertion. -/
def emptyMsg (obj : GDF) : String :=
  "Geodataframe is empty with shape: (" ++ toString obj.nRows ++ ", " ++
    toString obj.columns.length ++ ")"

/-- The message of `Triplegs._validate`'s missing-columns error. -/
def colsMsg (obj : GDF) : String :=
  "To process a DataFrame as a collection of triplegs, it must have the " ++
    "properties [user_id, started_at, finished_at], but it has [" ++
    String.intercalate ", " obj.colNames ++ "]."

/-- Rendering of a column dtype for the assertion messages. -/
def dtypeStr : Option Dtype → String
  | some Dtype.datetimeTZ => "datetime64[ns, UTC]"
  | some (Dtype.other s) => s
  | none => "?"

/-- The message of `Triplegs._validate`'s started_at dtype assertion. -/
def startedDtypeMsg (obj : GDF) : String :=
  "dtype of started_at is " ++ dtypeStr (obj.columns.lookup "started_at") ++
    " but has to be datetime64 and timezone aware"

/-- The message of `Triplegs._validate`'s finished_at dtype assertion. -/
def finishedDtypeMsg (obj : GDF) : String :=
  "dtype of finished_at is " ++ dtypeStr (obj.columns.lookup "finished_at") ++
    " but has to be datetime64 and timezone aware"

/-- The message of `Triplegs._validate`'s geometry-validity assertion. -/
def geomValidMsg : String :=
  "Not all geometries are valid. Try x[~ x.geometry.is_valid] where x is you GeoDataFrame"

/-- The message of `Triplegs._validate`'s LineString check. -/
def lineStringMsg : String :=
  "The geometry must be a LineString (only first checked)."

/-- Embedding of `Triplegs._validate` from `trackintel/model/triplegs.py`: the strict
validator, raising (via `Except.error`) on the first violated
requirement, in the source's order: non-empty, required columns,
timestamp dtypes, then (optionally) geometry validity and the first
row's geometry type. -/
def Triplegs._validate (obj : GDF) (validate_geometry : Bool) :
    Except String Unit :=
  if ¬ obj.nRows > 0 then .error (emptyMsg obj)
  else if (_required_columns.any (fun c => ¬ obj.hasCol c)) then
    .error (colsMsg obj)
  else if ¬ obj.dtypeIsTZ "started_at" then .error (startedDtypeMsg obj)
  else if ¬ obj.dtypeIsTZ "finished_at" then .error (finishedDtypeMsg obj)
  else if validate_geometry then
    match obj.geometry with
    | .error e => .error e
    | .ok geoms =>
      if ¬ geoms.all (fun g => g.valid) then .error geomValidMsg
      else
        match iloc0 geoms with
        | .error e => .error e
        | .ok g =>
          if g.geomType ≠ "LineString" then .error lineStringMsg
          else .ok ()
  else .ok ()

/-- Embedding of `Triplegs._check` from `trackintel/model/triplegs.py`: the boolean
twin of `_validate`, in the source's order: required columns, non-empty,
timestamp dtypes, then (optionally) the short-circuited conjunction of
geometry validity and the first row's geometry type.  Accessing a
missing geometry column still raises, as in the source. -/
def Triplegs._check (obj : GDF) (validate_geometry : Bool) :
    Except String Bool :=
  if (_required_columns.any (fun c => ¬ obj.hasCol c)) then .ok false
  else if obj.nRows ≤ 0 then .ok false
  else if ¬ obj.dtypeIsTZ "started_at" then .ok false
  else if ¬ obj.dtypeIsTZ "finished_at" then .ok false
  else if validate_geometry then
    match obj.geometry with
    | .error e => .error e
    | .ok geoms =>
      if ¬ geoms.all (fun g => g.valid) then .ok false
      else
        match iloc0 geoms with
        | .error e => .error e
        | .ok g => .ok (g.geomType == "LineString")
  else .ok true

/-- Embedding of `Triplegs.__init__`: builds the underlying frame, then runs
`_validate` on it; a typed instance exists only if validation passes. -/
def Triplegs.init (obj : GDF) (validate_geometry : Bool) :
    Except String GDF :=
  match Triplegs._validate obj validate_geometry with
  | .ok _ => .ok obj
  | .error e => .error e

/-!
`trackintel/model/util.py` is not among the sources; only its tests are.
The derived-result retagging policy (`_constructor` selection of the
Typed-View Base) and the accessor registry are therefore modelled from
the specification, sections 4.1 and 4.2.
-/

/-- Modelled from the spec: the fallback chain of Typed-View classes
declared for one view (`trackintel/model/util.py` is missing from the
sources).  Each level carries the class name and its Contract's boolean
check; `generic` is the ambient untyped Tabular Container. -/
inductive ViewChain where
  | generic : ViewChain
  | view (name : String) (chk : GDF → Bool) (fb : ViewChain) : ViewChain

/-- Modelled from the spec: the constructor-selection procedure run on a
derived result (spec 4.2, steps 2–5): check the most specific view's
Contract; on success re-tag with that view, on failure recurse into the
fallback chain; an exhausted chain yields the generic container
(`none`). -/
def retagClass : ViewChain → GDF → Option String
  | .generic, _ => none
  | .view n chk fb, obj => if chk obj then some n else retagClass fb obj

/-- A Contract check that only requires a set of columns to be present
(the aspect of a Contract that column-dropping can violate). -/
def checkCols (req : List String) (obj : GDF) : Bool :=
  req.all (fun c => obj.hasCol c)

/-- Column drop `df.drop(columns=c)`: remove the named column. -/
def GDF.drop (obj : GDF) (c : String) : GDF :=
  { obj with columns := obj.columns.filter (fun p => p.1 ≠ c) }

/-- Modelled from the spec: the Capability Registry (spec 4.1;
`trackintel/model/util.py` is missing from the sources).  A process-wide
name→factory binding table together with the number of duplicate-name
warnings surfaced so far. -/
structure Registry (α β : Type) where
  bindings : List (String × (α → β))
  warnings : Nat

/-- Modelled from the spec: `register(name, factory)` — surface a
warning if the name is already bound, then overwrite the binding so the
new registration takes effect (spec 4.1 and 7: warn-and-overwrite). -/
def Registry.register (r : Registry α β) (name : String) (factory : α → β) :
    Registry α β :=
  let dup := r.bindings.any (fun p => p.1 = name)
  { bindings := (name, factory) :: r.bindings.filter (fun p => ¬ p.1 = name),
    warnings := r.warnings + (if dup then 1 else 0) }

/-- Modelled from the spec: accessing a bound name on a container
instance invokes the registered factory on the instance, with no
cross-access caching (spec 4.1). -/
def Registry.access (r : Registry α β) (name : String) (inst : α) :
    Option β :=
  match r.bindings.find? (fun p => p.1 = name) with
  | some p => some (p.2 inst)
  | none => none

/-!  Helper instances, computable forms, and lemmas shared by the claim
theorems below. -/

/-- Decidable equality for `Except`, needed to `decide` concrete runs. -/
instance instDecEqExcept {ε α : Type} [DecidableEq ε] [DecidableEq α] :
    DecidableEq (Except ε α) := fun a b =>
  match a, b with
  | .error e, .error f =>
    if h : e = f then isTrue (by rw [h])
    else isFalse (fun c => by cases c; exact h rfl)
  | .ok x, .ok y =>
    if h : x = y then isTrue (by rw [h])
    else isFalse (fun c => by cases c; exact h rfl)
  | .error _, .ok _ => isFalse (fun c => Except.noConfusion c)
  | .ok _, .error _ => isFalse (fun c => Except.noConfusion c)

/-- The default bands with their bounds written as kernel-computable
rationals: 15/3.6 = 25/6 and 100/3.6 = 250/9. -/
def default_categories_divInt : List (WithTop ℚ × String) :=
  [((Rat.divInt 25 6 : ℚ), "slow_mobility"),
   ((Rat.divInt 250 9 : ℚ), "motorized_mobility"),
   (⊤, "fast_mobility")]

/-- The default bands equal their kernel-computable form. -/
theorem default_categories_eq :
    default_categories = default_categories_divInt := by
  simp only [default_categories, default_categories_divInt]
  rw [Rat.divInt_eq_div, Rat.divInt_eq_div]
  norm_num

/-- Dropping the head of a strictly-ascending bound list keeps it
strictly ascending. -/
theorem ascendingBounds_tail (a : WithTop ℚ) (l : List (WithTop ℚ))
    (h : ascendingBounds (a :: l) = true) : ascendingBounds l = true := by
  cases l with
  | nil => rfl
  | cons b r =>
    simp only [ascendingBounds, Bool.and_eq_true] at h
    exact h.2

/-- A category dict with ascending bounds keeps ascending bounds after
removing its first entry. -/
theorem _check_categories_tail (p : WithTop ℚ × String)
    (rest : List (WithTop ℚ × String))
    (h : _check_categories (p :: rest) = true) :
    _check_categories rest = true :=
  ascendingBounds_tail p.1 (rest.map Prod.fst) h

/-- The triplegs table of the spec's concrete classification scenario:
three rows whose external speed column is 2.0, 30.0, 200.0 m/s. -/
def tl_c1 : Table :=
  ⟨["user_id"], [[Value.str "a"], [Value.str "b"], [Value.str "c"]]⟩

/-- The external speed column for the three rows of `tl_c1`. -/
def gs_c1 : Table → List SpeedVal :=
  fun _ => [SpeedVal.val 2, SpeedVal.val 30, SpeedVal.val 200]

/-- C1, counterexample: with the default bands, the speeds
[2.0, 30.0, 200.0] m/s are NOT classified as
[motorized_mobility, fast_mobility, fast_mobility] — the first row's
speed 2.0 m/s is below the 15/3.6 ≈ 4.17 m/s bound, so it falls in
slow_mobility. -/
theorem c1_modes_counterexample :
    ¬ ((predict_transport_mode gs_c1 tl_c1 "simple-coarse"
          default_categories).2.map (fun t => t.getCol "mode") =
        Except.ok (some [Value.str "motorized_mobility",
          Value.str "fast_mobility", Value.str "fast_mobility"])) := by
  rw [default_categories_eq]
  decide

/-- C1, amended: `predict_transport_mode` with method 'simple-coarse'
and the default bands assigns the modes
[slow_mobility, fast_mobility, fast_mobility] to rows with speeds
[2.0, 30.0, 200.0] m/s. -/
theorem c1_modes_amended :
    (predict_transport_mode gs_c1 tl_c1 "simple-coarse"
        default_categories).2.map (fun t => t.getCol "mode") =
      Except.ok (some [Value.str "slow_mobility",
        Value.str "fast_mobility", Value.str "fast_mobility"]) := by
  rw [default_categories_eq]
  rfl

/-- C5: for every categories mapping with strictly ascending upper
bounds and every row speed, the 'simple-coarse' classifier
(`category_by_speed`) returns the category of the first band, in bound
order, whose upper bound strictly exceeds the row's speed (`List.find?`
over the band list). -/
theorem c5_first_exceeding_band (cats : List (WithTop ℚ × String))
    (h : _check_categories cats = true) (s : SpeedVal) :
    category_by_speed cats s =
      (cats.find? (fun p => s.lt p.1)).map Prod.snd := by
  induction cats with
  | nil => rfl
  | cons p rest ih =>
    obtain ⟨b, c⟩ := p
    by_cases hlt : s.lt b = true
    · simp [category_by_speed, List.find?_cons_of_pos, hlt]
    · have hlt' : s.lt b = false := by
        cases hb : s.lt b
        · rfl
        · exact absurd hb hlt
      simp [category_by_speed, List.find?_cons_of_neg, hlt',
        ih (_check_categories_tail (b, c) rest h)]

/-- C5 witness: a concrete ascending band list and speed, with the
hypothesis discharged by computation. -/
theorem c5_first_exceeding_band_witness :
    _check_categories [(((5 : ℚ) : WithTop ℚ), "slow"), (⊤, "fast")] = true ∧
    category_by_speed [(((5 : ℚ) : WithTop ℚ), "slow"), (⊤, "fast")]
        (SpeedVal.val 7) =
      (List.find? (fun p => SpeedVal.lt (SpeedVal.val 7) p.1)
        [(((5 : ℚ) : WithTop ℚ), "slow"), (⊤, "fast")]).map Prod.snd :=
  ⟨by decide,
    c5_first_exceeding_band [(((5 : ℚ) : WithTop ℚ), "slow"), (⊤, "fast")]
      (by decide) (SpeedVal.val 7)⟩

/-- C6: with method 'time_threshold' and threshold 15, the activity
column written onto the staypoints holds, row by row, exactly the
comparison duration > 15 minutes; in particular a 20-minute (1200 s)
row flags true and a 10-minute (600 s) row flags false. -/
theorem c6_time_threshold_flag (sp : Table) (ss fs : List Value)
    (h1 : sp.getCol "started_at" = some ss)
    (h2 : sp.getCol "finished_at" = some fs) :
    (create_activity_flag sp "time_threshold" 15 "is_activity").1 =
      sp.setCol "is_activity"
        (List.zipWith (fun s f => Value.boolean (durationGT 15 s f)) ss fs) ∧
    (∀ s f : ℚ, durationGT 15 (Value.timestamp s) (Value.timestamp f) =
      decide (f - s > 15 * 60)) ∧
    durationGT 15 (Value.timestamp 0) (Value.timestamp 1200) = true ∧
    durationGT 15 (Value.timestamp 0) (Value.timestamp 600) = false := by
  refine ⟨?_, fun s f => rfl, ?_, ?_⟩
  · simp [create_activity_flag, h1, h2]
  · simp only [durationGT, decide_eq_true_eq]
    norm_num
  · simp only [durationGT]
    norm_num

/-- The staypoints table of the spec's duration scenario: one 20-minute
row and one 10-minute row. -/
def sp_c6 : Table :=
  ⟨["user_id", "started_at", "finished_at"],
   [[Value.str "u", Value.timestamp 0, Value.timestamp 1200],
    [Value.str "v", Value.timestamp 0, Value.timestamp 600]]⟩

/-- C6 witness: the theorem applied to the concrete two-row table. -/
theorem c6_time_threshold_flag_witness :
    sp_c6.getCol "started_at" = some [Value.timestamp 0, Value.timestamp 0] ∧
    sp_c6.getCol "finished_at" =
      some [Value.timestamp 1200, Value.timestamp 600] ∧
    ((create_activity_flag sp_c6 "time_threshold" 15 "is_activity").1 =
      sp_c6.setCol "is_activity"
        (List.zipWith (fun s f => Value.boolean (durationGT 15 s f))
          [Value.timestamp 0, Value.timestamp 0]
          [Value.timestamp 1200, Value.timestamp 600]) ∧
    (∀ s f : ℚ, durationGT 15 (Value.timestamp s) (Value.timestamp f) =
      decide (f - s > 15 * 60)) ∧
    durationGT 15 (Value.timestamp 0) (Value.timestamp 1200) = true ∧
    durationGT 15 (Value.timestamp 0) (Value.timestamp 600) = false) :=
  ⟨rfl, rfl,
    c6_time_threshold_flag sp_c6 [Value.timestamp 0, Value.timestamp 0]
      [Value.timestamp 1200, Value.timestamp 600] rfl rfl⟩

/-- C8: any method name other than the supported one makes the
analytics functions raise at the call site with the input table left
untouched: `predict_transport_mode` for methods other than
'simple-coarse', `create_activity_flag` for methods other than
'time_threshold'. -/
theorem c8_unknown_method_raises (gs : Table → List SpeedVal)
    (t sp : Table) (cats : List (WithTop ℚ × String)) (m1 m2 : String)
    (thr : ℚ) (cn : String)
    (h1 : m1 ≠ "simple-coarse") (h2 : m2 ≠ "time_threshold") :
    predict_transport_mode gs t m1 cats =
      (t, .error ("Method " ++ m1 ++
        " not known for predicting tripleg transport modes.")) ∧
    create_activity_flag sp m2 thr cn =
      (sp, .error ("Method " ++ m2 ++
        " not known for creating activity flag.")) := by
  constructor
  · simp [predict_transport_mode, h1]
  · simp [create_activity_flag, h2]

/-- C8 witness: the unknown method name "foo" on concrete tables. -/
theorem c8_unknown_method_raises_witness :
    ("foo" : String) ≠ "simple-coarse" ∧ ("foo" : String) ≠ "time_threshold" ∧
    (predict_transport_mode gs_c1 tl_c1 "foo" default_categories_divInt =
      (tl_c1, .error ("Method " ++ "foo" ++
        " not known for predicting tripleg transport modes.")) ∧
    create_activity_flag sp_c6 "foo" 15 "is_activity" =
      (sp_c6, .error ("Method " ++ "foo" ++
        " not known for creating activity flag."))) :=
  ⟨by decide, by decide,
    c8_unknown_method_raises gs_c1 tl_c1 sp_c6 default_categories_divInt
      "foo" "foo" 15 "is_activity" (by decide) (by decide)⟩

/-- A speed below no bound reaches the end of the category scan, which
returns Python's implicit `None`. -/
theorem category_by_speed_none (s : SpeedVal) :
    ∀ cats : List (WithTop ℚ × String),
      (∀ p ∈ cats, s.lt p.1 = false) → category_by_speed cats s = none := by
  intro cats
  induction cats with
  | nil => intro _; rfl
  | cons p rest ih =>
    intro hb
    obtain ⟨b, c⟩ := p
    have hb0 : SpeedVal.lt s b = false := hb (b, c) (List.mem_cons_self _ _)
    simp only [category_by_speed, hb0, Bool.false_eq_true, if_false]
    exact ih (fun q hq => hb q (List.mem_cons_of_mem _ hq))

/-- C10: when a row's speed is not strictly below any bound (for
example NaN, or a speed at or above the largest bound), the
'simple-coarse' classifier returns no category: the scan yields `none`,
the stored cell is null, and the prediction still succeeds without an
error. -/
theorem c10_no_band_yields_null (cats : List (WithTop ℚ × String))
    (s : SpeedVal) (hb : ∀ p ∈ cats, s.lt p.1 = false)
    (hc : _check_categories cats = true)
    (gs : Table → List SpeedVal) (t : Table) (hgs : gs t = [s]) :
    category_by_speed cats s = none ∧
    modeCell cats s = Value.null ∧
    _predict_transport_mode_simple_coarse gs t cats =
      .ok (t.setCol "mode" [Value.null]) := by
  have hnone : category_by_speed cats s = none :=
    category_by_speed_none s cats hb
  refine ⟨hnone, ?_, ?_⟩
  · simp [modeCell, hnone]
  · simp [_predict_transport_mode_simple_coarse, hc, hgs, modeCell, hnone]

/-- C10 witness: a NaN speed against the default bands. -/
theorem c10_no_band_yields_null_witness :
    (∀ p ∈ default_categories_divInt, SpeedVal.nan.lt p.1 = false) ∧
    _check_categories default_categories_divInt = true ∧
    (category_by_speed default_categories_divInt SpeedVal.nan = none ∧
    modeCell default_categories_divInt SpeedVal.nan = Value.null ∧
    _predict_transport_mode_simple_coarse (fun _ => [SpeedVal.nan]) tl_c1
        default_categories_divInt =
      .ok (tl_c1.setCol "mode" [Value.null])) :=
  ⟨by decide, by decide,
    c10_no_band_yields_null default_categories_divInt SpeedVal.nan
      (by decide) (by decide) (fun _ => [SpeedVal.nan]) tl_c1 rfl⟩

/-- C9: `predict_transport_mode` leaves the caller's triplegs object
untouched and returns a fresh table equal to the input extended with
exactly the new 'mode' column (same rows, each extended by one cell);
`create_activity_flag` instead returns the very staypoints object it
mutated (its return value is its argument's post-state). -/
theorem c9_frame_effects (gs : Table → List SpeedVal) (t : Table)
    (cats : List (WithTop ℚ × String)) (sp : Table) (thr : ℚ) (cn : String)
    (ss fs : List Value)
    (hc : _check_categories cats = true)
    (hm : colIndex "mode" t.cols = none)
    (hl : (gs t).length = t.rows.length)
    (hst : sp.getCol "started_at" = some ss)
    (hfin : sp.getCol "finished_at" = some fs) :
    (predict_transport_mode gs t "simple-coarse" cats).1 = t ∧
    (predict_transport_mode gs t "simple-coarse" cats).2 =
      .ok ⟨t.cols ++ ["mode"],
        List.zipWith (fun r v => r ++ [v]) t.rows
          ((gs t).map (modeCell cats))⟩ ∧
    (List.zipWith (fun r v => r ++ [v]) t.rows
        ((gs t).map (modeCell cats))).length = t.rows.length ∧
    (create_activity_flag sp "time_threshold" thr cn).2 =
      .ok (create_activity_flag sp "time_threshold" thr cn).1 := by
  refine ⟨rfl, ?_, ?_, ?_⟩
  · simp [predict_transport_mode, _predict_transport_mode_simple_coarse,
      hc, Table.setCol, hm]
  · rw [List.length_zipWith, List.length_map, hl, Nat.min_self]
  · simp [create_activity_flag, hst, hfin]

/-- C9 witness: the concrete three-row triplegs table and the concrete
two-row staypoints table. -/
theorem c9_frame_effects_witness :
    _check_categories default_categories_divInt = true ∧
    colIndex "mode" tl_c1.cols = none ∧
    (gs_c1 tl_c1).length = tl_c1.rows.length ∧
    sp_c6.getCol "started_at" = some [Value.timestamp 0, Value.timestamp 0] ∧
    sp_c6.getCol "finished_at" =
      some [Value.timestamp 1200, Value.timestamp 600] ∧
    ((predict_transport_mode gs_c1 tl_c1 "simple-coarse"
        default_categories_divInt).1 = tl_c1 ∧
    (predict_transport_mode gs_c1 tl_c1 "simple-coarse"
        default_categories_divInt).2 =
      .ok ⟨tl_c1.cols ++ ["mode"],
        List.zipWith (fun r v => r ++ [v]) tl_c1.rows
          ((gs_c1 tl_c1).map (modeCell default_categories_divInt))⟩ ∧
    (List.zipWith (fun r v => r ++ [v]) tl_c1.rows
        ((gs_c1 tl_c1).map (modeCell default_categories_divInt))).length =
      tl_c1.rows.length ∧
    (create_activity_flag sp_c6 "time_threshold" 15 "is_activity").2 =
      .ok (create_activity_flag sp_c6 "time_threshold" 15 "is_activity").1) :=
  ⟨by decide, rfl, rfl, rfl, rfl,
    c9_frame_effects gs_c1 tl_c1 default_categories_divInt sp_c6 15
      "is_activity" [Value.timestamp 0, Value.timestamp 0]
      [Value.timestamp 1200, Value.timestamp 600]
      (by decide) rfl rfl rfl rfl⟩

/-- C2: on every frame and for every `validate_geometry` flag,
`Triplegs._check` returns True exactly when `Triplegs._validate`
completes without raising: the boolean check and the raising validator
express the same predicate. -/
theorem c2_check_iff_validate (obj : GDF) (vg : Bool) :
    Triplegs._check obj vg = Except.ok true ↔
    Triplegs._validate obj vg = Except.ok () := by
  unfold Triplegs._check Triplegs._validate
  by_cases hC : ∃ x ∈ _required_columns, obj.hasCol x = false
  · by_cases hE0 : obj.nRows = 0 <;>
      simp [hC, hE0, Nat.le_zero, Nat.pos_iff_ne_zero]
  · by_cases hE0 : obj.nRows = 0
    · simp [hC, hE0, Nat.le_zero, Nat.pos_iff_ne_zero]
    · cases hS : obj.dtypeIsTZ "started_at" with
      | false => simp [hC, hE0, hS, Nat.le_zero, Nat.pos_iff_ne_zero]
      | true =>
        cases hF : obj.dtypeIsTZ "finished_at" with
        | false => simp [hC, hE0, hS, hF, Nat.le_zero, Nat.pos_iff_ne_zero]
        | true =>
          cases vg with
          | false => simp [hC, hE0, hS, hF, Nat.le_zero, Nat.pos_iff_ne_zero]
          | true =>
            cases hg : obj.geometry with
            | error e =>
              simp [hC, hE0, hS, hF, hg, Nat.le_zero, Nat.pos_iff_ne_zero]
            | ok geoms =>
              by_cases hv : ∃ x ∈ geoms, x.valid = false
              · simp [hC, hE0, hS, hF, hg, hv, Nat.le_zero,
                  Nat.pos_iff_ne_zero]
              · cases hi : iloc0 geoms with
                | error e =>
                  simp [hC, hE0, hS, hF, hg, hv, hi, Nat.le_zero,
                    Nat.pos_iff_ne_zero]
                | ok g =>
                  cases hL : decide (g.geomType = "LineString") with
                  | false =>
                    simp only [decide_eq_false_iff_not] at hL
                    simp [hC, hE0, hS, hF, hg, hv, hi, hL, Nat.le_zero,
                      Nat.pos_iff_ne_zero]
                  | true =>
                    simp only [decide_eq_true_eq] at hL
                    simp [hC, hE0, hS, hF, hg, hv, hi, hL, Nat.le_zero,
                      Nat.pos_iff_ne_zero]

/-- C4: constructing a `Triplegs` over raw data that violates the
contract — empty frame, missing required column, or a start/end dtype
that is not timezone-aware — raises a structural error whose message is
the one written for a violated requirement, and produces no typed
instance. -/
theorem c4_construct_raises (obj : GDF) (vg : Bool)
    (h : obj.nRows = 0 ∨
      (∃ cn ∈ _required_columns, obj.hasCol cn = false) ∨
      obj.dtypeIsTZ "started_at" = false ∨
      obj.dtypeIsTZ "finished_at" = false) :
    (∀ g, Triplegs.init obj vg ≠ .ok g) ∧
    ∃ e, Triplegs.init obj vg = .error e ∧
      ((obj.nRows = 0 ∧ e = emptyMsg obj) ∨
       ((∃ cn ∈ _required_columns, obj.hasCol cn = false) ∧
         e = colsMsg obj) ∨
       (obj.dtypeIsTZ "started_at" = false ∧ e = startedDtypeMsg obj) ∨
       (obj.dtypeIsTZ "finished_at" = false ∧ e = finishedDtypeMsg obj)) := by
  have herr : ∃ e, Triplegs.init obj vg = .error e ∧
      ((obj.nRows = 0 ∧ e = emptyMsg obj) ∨
       ((∃ cn ∈ _required_columns, obj.hasCol cn = false) ∧
         e = colsMsg obj) ∨
       (obj.dtypeIsTZ "started_at" = false ∧ e = startedDtypeMsg obj) ∨
       (obj.dtypeIsTZ "finished_at" = false ∧
         e = finishedDtypeMsg obj)) := by
    by_cases hE0 : obj.nRows = 0
    · refine ⟨emptyMsg obj, ?_, Or.inl ⟨hE0, rfl⟩⟩
      simp [Triplegs.init, Triplegs._validate, hE0]
    · by_cases hCex : ∃ cn ∈ _required_columns, obj.hasCol cn = false
      · refine ⟨colsMsg obj, ?_, Or.inr (Or.inl ⟨hCex, rfl⟩)⟩
        simp [Triplegs.init, Triplegs._validate, hE0, hCex,
          Nat.pos_iff_ne_zero]
      · cases hs : obj.dtypeIsTZ "started_at" with
        | false =>
          refine ⟨startedDtypeMsg obj, ?_,
            Or.inr (Or.inr (Or.inl ⟨rfl, rfl⟩))⟩
          simp [Triplegs.init, Triplegs._validate, hE0, hCex, hs,
            Nat.pos_iff_ne_zero]
        | true =>
          cases hf : obj.dtypeIsTZ "finished_at" with
          | false =>
            refine ⟨finishedDtypeMsg obj, ?_,
              Or.inr (Or.inr (Or.inr ⟨rfl, rfl⟩))⟩
            simp [Triplegs.init, Triplegs._validate, hE0, hCex, hs, hf,
              Nat.pos_iff_ne_zero]
          | true =>
            exfalso
            rcases h with h | h | h | h
            · exact hE0 h
            · exact hCex h
            · rw [hs] at h; cases h
            · rw [hf] at h; cases h
  obtain ⟨e, he, hwhich⟩ := herr
  refine ⟨?_, ⟨e, he, hwhich⟩⟩
  intro g hg
  rw [he] at hg
  exact Except.noConfusion hg

/-- An empty GeoDataFrame: zero rows, no columns, no geometry. -/
def gdf_empty : GDF := ⟨[], 0, none, []⟩

/-- C4 witness: constructing triplegs over the empty frame fails. -/
theorem c4_construct_raises_witness :
    gdf_empty.nRows = 0 ∧
    ((∀ g, Triplegs.init gdf_empty true ≠ .ok g) ∧
     ∃ e, Triplegs.init gdf_empty true = .error e ∧
      ((gdf_empty.nRows = 0 ∧ e = emptyMsg gdf_empty) ∨
       ((∃ cn ∈ _required_columns, gdf_empty.hasCol cn = false) ∧
         e = colsMsg gdf_empty) ∨
       (gdf_empty.dtypeIsTZ "started_at" = false ∧
         e = startedDtypeMsg gdf_empty) ∨
       (gdf_empty.dtypeIsTZ "finished_at" = false ∧
         e = finishedDtypeMsg gdf_empty))) :=
  ⟨rfl, c4_construct_raises gdf_empty true (Or.inl rfl)⟩

/-- Dropping a column keeps exactly the other column names. -/
theorem colNames_drop (obj : GDF) (c : String) :
    (obj.drop c).colNames = obj.colNames.filter (fun x => x ≠ c) := by
  show (obj.columns.filter (fun p => p.1 ≠ c)).map Prod.fst =
    (obj.columns.map Prod.fst).filter (fun x => x ≠ c)
  induction obj.columns with
  | nil => rfl
  | cons p r ih =>
    simp only [ne_eq, decide_not] at ih ⊢
    by_cases hp : p.1 = c <;> simp [hp, ih]

/-- After dropping `c`, the dropped column is gone and every other
present column is still present. -/
theorem hasCol_drop (obj : GDF) (c r : String) :
    (obj.drop c).hasCol r = true ↔ r ∈ obj.colNames ∧ r ≠ c := by
  simp [GDF.hasCol, colNames_drop, List.mem_filter]

/-- C3: under the spec's constructor-selection policy, for a typed view
whose contract requires columns `reqA` and whose declared fallback
requires `reqB`: dropping a column required only by the stricter
contract re-tags the result as the fallback class; dropping a column
required by neither keeps the original class; and with no declared
fallback, dropping a required column degrades to the plain generic
container (`none`). -/
theorem c3_drop_column_fallback (obj : GDF) (reqA reqB : List String)
    (nA nB : String) (c : String) :
    (c ∈ reqA → c ∉ reqB → (∀ r ∈ reqB, r ∈ obj.colNames) →
      retagClass (ViewChain.view nA (checkCols reqA)
        (ViewChain.view nB (checkCols reqB) ViewChain.generic))
        (obj.drop c) = some nB) ∧
    (c ∉ reqA → c ∉ reqB → (∀ r ∈ reqA, r ∈ obj.colNames) →
      retagClass (ViewChain.view nA (checkCols reqA)
        (ViewChain.view nB (checkCols reqB) ViewChain.generic))
        (obj.drop c) = some nA) ∧
    (c ∈ reqA →
      retagClass (ViewChain.view nA (checkCols reqA) ViewChain.generic)
        (obj.drop c) = none) := by
  have hAfalse : c ∈ reqA → checkCols reqA (obj.drop c) = false := by
    intro hcA
    rw [Bool.eq_false_iff]
    intro hall
    simp only [checkCols, List.all_eq_true] at hall
    have hc := hall c hcA
    rw [hasCol_drop] at hc
    exact hc.2 rfl
  refine ⟨?_, ?_, ?_⟩
  · intro hcA hcB hsubB
    have hBtrue : checkCols reqB (obj.drop c) = true := by
      simp only [checkCols, List.all_eq_true]
      intro r hr
      rw [hasCol_drop]
      exact ⟨hsubB r hr, fun hrc => hcB (hrc ▸ hr)⟩
    simp [retagClass, hAfalse hcA, hBtrue]
  · intro hcA _ hsubA
    have hAtrue : checkCols reqA (obj.drop c) = true := by
      simp only [checkCols, List.all_eq_true]
      intro r hr
      rw [hasCol_drop]
      exact ⟨hsubA r hr, fun hrc => hcA (hrc ▸ hr)⟩
    simp [retagClass, hAtrue]
  · intro hcA
    simp [retagClass, hAfalse hcA]

/-- The frame of the spec's concrete drop scenario: user_id, the two
timestamps, and a geometry column. -/
def gdf_c3 : GDF :=
  ⟨[("user_id", Dtype.other "int64"), ("started_at", Dtype.datetimeTZ),
    ("finished_at", Dtype.datetimeTZ), ("geometry", Dtype.other "geometry")],
   3, some "geometry", [⟨true, "LineString"⟩, ⟨true, "LineString"⟩,
    ⟨true, "LineString"⟩]⟩

/-- C3 witness: dropping "geometry" from a view requiring it (with a
fallback requiring only the attribute columns) re-tags as the fallback;
dropping an unrequired column keeps the view; without a fallback,
dropping "user_id" degrades to the generic container. -/
theorem c3_drop_column_fallback_witness :
    ("geometry" ∈ ["user_id", "geometry"] ∧
     "geometry" ∉ ["user_id"] ∧
     (∀ r ∈ ["user_id"], r ∈ gdf_c3.colNames) ∧
     "extra" ∉ ["user_id", "geometry"] ∧ "extra" ∉ ["user_id"] ∧
     (∀ r ∈ ["user_id", "geometry"], r ∈ gdf_c3.colNames) ∧
     "user_id" ∈ ["user_id", "geometry"]) ∧
    retagClass (ViewChain.view "Triplegs" (checkCols ["user_id", "geometry"])
        (ViewChain.view "TriplegsFallback" (checkCols ["user_id"])
          ViewChain.generic))
      (gdf_c3.drop "geometry") = some "TriplegsFallback" ∧
    retagClass (ViewChain.view "Triplegs" (checkCols ["user_id", "geometry"])
        (ViewChain.view "TriplegsFallback" (checkCols ["user_id"])
          ViewChain.generic))
      (gdf_c3.drop "extra") = some "Triplegs" ∧
    retagClass (ViewChain.view "Triplegs" (checkCols ["user_id", "geometry"])
        ViewChain.generic)
      (gdf_c3.drop "user_id") = none :=
  ⟨⟨by decide, by decide, by decide, by decide, by decide, by decide,
    by decide⟩,
   (c3_drop_column_fallback gdf_c3 ["user_id", "geometry"] ["user_id"]
      "Triplegs" "TriplegsFallback" "geometry").1
     (by decide) (by decide) (by decide),
   (c3_drop_column_fallback gdf_c3 ["user_id", "geometry"] ["user_id"]
      "Triplegs" "TriplegsFallback" "extra").2.1
     (by decide) (by decide) (by decide),
   (c3_drop_column_fallback gdf_c3 ["user_id", "geometry"] ["user_id"]
      "Triplegs" "TriplegsFallback" "user_id").2.2 (by decide)⟩

/-- C7: registering a name that is not yet bound surfaces no warning;
registering it a second time surfaces exactly one more warning, and the
second factory wins — a subsequent instance access runs the second
factory on the instance. -/
theorem c7_second_registration_wins {α β : Type} (r : Registry α β)
    (n : String) (f g : α → β) (x : α)
    (h : (r.bindings.any fun p => p.1 = n) = false) :
    ((r.register n f).warnings = r.warnings) ∧
    (((r.register n f).register n g).warnings = r.warnings + 1) ∧
    (((r.register n f).register n g).access n x = some (g x)) := by
  refine ⟨?_, ?_, ?_⟩
  · simp [Registry.register, h]
  · simp [Registry.register, h]
  · simp [Registry.register, Registry.access]

/-- The empty accessor registry over natural-number containers. -/
def reg0 : Registry Nat Nat := ⟨[], 0⟩

/-- C7 witness: registering "foo" twice on the empty registry. -/
theorem c7_second_registration_wins_witness :
    ((reg0.bindings.any fun p => p.1 = "foo") = false) ∧
    (((reg0.register "foo" (fun v => v)).warnings = reg0.warnings) ∧
     (((reg0.register "foo" (fun v => v)).register "foo"
        (fun v => v + 1)).warnings = reg0.warnings + 1) ∧
     (((reg0.register "foo" (fun v => v)).register "foo"
        (fun v => v + 1)).access "foo" 5 = some ((fun v => v + 1) 5))) :=
  ⟨rfl, c7_second_registration_wins reg0 "foo" (fun v => v)
    (fun v => v + 1) 5 rfl⟩
